import Mathlib

/-!
Shallow embedding of the validation engine of `validate_scripts.py`
(class `AdvancedScriptValidator`): the naming rule
(`_generate_script_name`), the filter pipeline (`apply_filters`), the
corpus scan (`find_python_scripts`), the exact-mode matcher
(`validate_scripts`) and the Jaccard similarity
(`_calculate_similarity`), together with theorems settling the
claims of the specification about them.

Machine strings are modelled as Lean `String`; the Python string
helpers used by the source (`strip`, `lower`, `split`, `join`,
`rstrip`, `endswith`) are embedded as executable character-list
functions with the Python semantics, because the corresponding
built-in Lean functions do not reduce under kernel evaluation.
-/

namespace ScriptValidator

/-- Embeds Python `s.strip()` (no arguments: strip surrounding
whitespace from both ends). -/
def pyStrip (s : String) : String :=
  String.mk (((s.data.dropWhile Char.isWhitespace).reverse.dropWhile Char.isWhitespace).reverse)

/-- Embeds Python `s.lower()` (character-wise lowercasing). -/
def pyLower (s : String) : String :=
  String.mk (s.data.map Char.toLower)

/-- Embeds Python `sep.join(parts)` for a one-character separator:
the parts concatenated with the separator between consecutive parts,
the empty string for no parts. -/
def pyJoin (sep : String) : List String → String
  | [] => ""
  | [p] => p
  | p :: q :: rest => p ++ sep ++ pyJoin sep (q :: rest)

/-- Embeds Python `s.rstrip(\x7b0x5f\x7d)` as used for `key_name` in
`generate_expected_scripts` (line 212): drop trailing underscores. -/
def rstripUnderscore (s : String) : String :=
  String.mk ((s.data.reverse.dropWhile (fun c => c = '_')).reverse)

/-- Embeds Python `s.endswith(pat)`. -/
def pyEndsWith (s pat : String) : Bool :=
  List.isSuffixOf pat.data s.data

/-- Embeds Python `s.split(sep)` for a one-character separator:
auxiliary recursion over the remaining characters, carrying the
reversed current token. Like Python, the result is never the empty
list (splitting the empty string gives one empty token). -/
def splitAux (sep : Char) : List Char → List Char → List String
  | [], acc => [String.mk acc.reverse]
  | c :: cs, acc =>
    if c = sep then String.mk acc.reverse :: splitAux sep cs []
    else splitAux sep cs (c :: acc)

/-- Embeds Python `s.split(sep)` for a one-character separator. -/
def pySplit (sep : Char) (s : String) : List String :=
  splitAux sep s.data []

/-- The blankness test of `_generate_script_name` (line 235): a part
is blank when it is falsy (empty), strips to the empty string, or
strips and lowercases to the token `"nan"`. -/
def isBlankPart (part : String) : Bool :=
  part = "" || pyStrip part = "" || pyLower (pyStrip part) = "nan"

/-- One step of the part-collecting loop of `_generate_script_name`
(lines 234-236): a non-blank part contributes its stripped text. -/
def keepPart (part : String) : Option String :=
  if isBlankPart part then none else some (pyStrip part)

/-- Embeds `AdvancedScriptValidator._generate_script_name` (lines
227-243): collect the stripped non-blank parts of the four levels in
order; if any part remains, wrap the underscore-joined parts with the
literal `"IBD_"` and the literal suffix `"__.py"`; otherwise return
the empty string (the Python code returns `""`, its "no identifier"
sentinel). -/
def generate_script_name (category2 level1 level2 level3 : String) : String :=
  let parts := List.filterMap keepPart [category2, level1, level2, level3]
  if parts.isEmpty then "" else "IBD_" ++ pyJoin "_" parts ++ "__.py"

/-- A cell value of the tabular source: a string, or the pandas
missing-value marker `NaN`. -/
inductive Value where
  | str : String → Value
  | na : Value
deriving DecidableEq, Repr

/-- A row of the filtered data as consumed by
`generate_expected_scripts`, restricted to the four required level
columns (lines 181, 196-199); schema presence of the required columns
holds by construction here (the source returns an empty list when a
required column is missing from the frame). -/
structure Row where
  category2 : Value
  level1 : Value
  level2 : Value
  level3 : Value
deriving DecidableEq, Repr

/-- The per-cell extraction of `generate_expected_scripts` (lines
196-199): `str(cell).strip()` when the cell is not `NaN`, else `""`. -/
def cellStr : Value → String
  | .na => ""
  | .str s => pyStrip s

/-- One entry of `expected_scripts` (lines 205-213), keeping the
fields the matcher and the suggestion pass read: the originating row,
the expected script name, and the `key_name` string. -/
structure ExpectedScript where
  row : Row
  script_name : String
  key_name : String
deriving DecidableEq, Repr

/-- Embeds `AdvancedScriptValidator.generate_expected_scripts` (lines
194-221): per row, extract the level cells, build the script name,
and keep only rows whose script name is truthy (non-empty); rows with
the empty-string sentinel are not added to the expected list. -/
def generate_expected_scripts (rows : List Row) : List ExpectedScript :=
  rows.filterMap (fun r =>
    let c := cellStr r.category2
    let l1 := cellStr r.level1
    let l2 := cellStr r.level2
    let l3 := cellStr r.level3
    let name := generate_script_name c l1 l2 l3
    if name = "" then none
    else some { row := r, script_name := name,
                key_name := rstripUnderscore (c ++ "_" ++ l1 ++ "_" ++ l2 ++ "_" ++ l3) })

/-- One discovered corpus file (lines 263-269), keeping the fields
read downstream: the bare filename, the path relative to the scan
root (modelled as directory-slash-name), and the containing
directory. The unused `key_parts` extraction is omitted. -/
structure Script where
  file_name : String
  relative_path : String
  folder : String
deriving DecidableEq, Repr

/-- Embeds `os.path.join(root, file)` relative to the scan root: the
walk entries carry root directories already relative to the scanned
folder, so the relative path is the directory joined to the name. -/
def pathJoin (root file : String) : String :=
  root ++ "/" ++ file

/-- Embeds `AdvancedScriptValidator.find_python_scripts` (lines
245-274). The deterministic `os.walk` traversal is modelled by its
outcome: a list of (directory, filenames) entries in traversal order.
Every file ending in `".py"` contributes one Script entry, in order;
duplicate filenames in different directories each contribute their
own entry. -/
def find_python_scripts (walk : List (String × List String)) : List Script :=
  walk.flatMap (fun entry =>
    entry.2.filterMap (fun file =>
      if pyEndsWith file ".py" then
        some { file_name := file, relative_path := pathJoin entry.1 file, folder := entry.1 }
      else none))

/-- The inner search loop of `validate_scripts` (lines 322-327): scan
`found_scripts` in order and stop at the first script whose
`file_name` equals the expected name. -/
def findFirst (name : String) : List Script → Option Script
  | [] => none
  | s :: rest => if s.file_name = name then some s else findFirst name rest

/-- One row of `validation_results` (lines 329-335), keeping the
matcher-written fields: the expected entry, whether the file was
found (the Korean status and existence columns both encode exactly
this Boolean), and the relative path of the attached script (empty
when not found). -/
structure ValidationResult where
  expected : ExpectedScript
  status_found : Bool
  actual_path : String
deriving DecidableEq, Repr

/-- The per-row body of the `validate_scripts` loop (lines 317-338). -/
def validateOne (scripts : List Script) (e : ExpectedScript) : ValidationResult :=
  match findFirst e.script_name scripts with
  | some s => { expected := e, status_found := true, actual_path := s.relative_path }
  | none => { expected := e, status_found := false, actual_path := "" }

/-- Embeds `AdvancedScriptValidator.validate_scripts` (lines 300-349):
one ValidationResult per expected entry, in order, and the sublist of
results whose file was not found (`missing_scripts`). -/
def validate_scripts (expected : List ExpectedScript) (scripts : List Script) :
    List ValidationResult × List ValidationResult :=
  let results := expected.map (validateOne scripts)
  (results, results.filter (fun r => !r.status_found))

/-- A row of the raw data frame for the filter pipeline: an
association list from column name to cell value (pandas guarantees
each row carries every frame column; lookups of absent names default
to `NaN`). -/
abbrev RowMap := List (String × Value)

/-- Cell lookup in a `RowMap`. -/
def getVal (r : RowMap) (c : String) : Value :=
  match r.find? (fun p => p.1 = c) with
  | some p => p.2
  | none => Value.na

/-- The filter-condition variants dispatched by `apply_filters`
(lines 129-163), as the tagged variant the design notes mandate:
custom whole-row predicate (column `"__custom__"`), the `"notnull"`
marker, list membership, per-cell callable, and equality with a
single value. -/
inductive Condition where
  | custom : (RowMap → Bool) → Condition
  | notnull : Condition
  | inList : List Value → Condition
  | callable : (Value → Bool) → Condition
  | equal : Value → Condition

/-- One registered filter (`add_filter`, lines 67-81): column name
plus condition. The free-text description only feeds the audit
printout and the report sheet, so it is not carried here. -/
structure RowFilter where
  column : String
  condition : Condition

/-- Whether a filter is the custom whole-row variant (dispatched
first, line 129, and the only variant that never reads a column). -/
def isCustomF (f : RowFilter) : Bool :=
  match f.condition with
  | .custom _ => true
  | _ => false

/-- Pandas scalar equality as used by `df[column] == condition`
(line 161): `NaN` compares unequal to everything. -/
def valueEqB (x v : Value) : Bool :=
  match x, v with
  | .na, _ => false
  | .str _, .na => false
  | .str s, .str t => s = t

/-- Pandas `notna` (line 140): true exactly on non-`NaN` cells. -/
def valueNotNull : Value → Bool
  | .na => false
  | .str _ => true

/-- The row predicate a filter evaluates once its column access
succeeded (lines 129-163). -/
def evalFilter (f : RowFilter) (r : RowMap) : Bool :=
  match f.condition with
  | .custom p => p r
  | .notnull => valueNotNull (getVal r f.column)
  | .inList vs => vs.contains (getVal r f.column)
  | .callable p => p (getVal r f.column)
  | .equal v => valueEqB (getVal r f.column) v

/-- One step of the `apply_filters` loop (lines 124-163): the custom
variant never touches a column; every other variant accesses
`df[column]`, which raises a `KeyError` carrying the column name when
the column is absent from the frame schema (modelled as
`Except.error column`), and otherwise keeps the rows satisfying the
predicate. -/
def filterStep (cols : List String) (rows : List RowMap) (f : RowFilter) :
    Except String (List RowMap) :=
  if isCustomF f then Except.ok (rows.filter (evalFilter f))
  else if cols.contains f.column then Except.ok (rows.filter (evalFilter f))
  else Except.error f.column

/-- Embeds `AdvancedScriptValidator.apply_filters` (lines 112-168):
fold the registered filters in order over the row collection,
stopping at the first failing column access (an uncaught `KeyError`
aborts the Python loop). The printed before/after audit counts are
observable from the intermediate row lists and are not separately
modelled. -/
def apply_filters (cols : List String) (rows : List RowMap) :
    List RowFilter → Except String (List RowMap)
  | [] => Except.ok rows
  | f :: rest =>
    match filterStep cols rows f with
    | Except.ok rows2 => apply_filters cols rows2 rest
    | Except.error c => Except.error c

/-- The column name of the first filter whose application fails: the
first non-custom filter whose column is absent from the schema. This
is the error `apply_filters` surfaces, independent of the row data. -/
def firstError (cols : List String) : List RowFilter → Option String
  | [] => none
  | f :: rest =>
    if isCustomF f || cols.contains f.column then firstError cols rest
    else some f.column

/-- The token set of one side of `_calculate_similarity` (lines
532-533): the set of underscore-separated tokens of the string. -/
def tokenSet (s : String) : Finset String :=
  (pySplit '_' s).toFinset

/-- The set-level core of `_calculate_similarity` (lines 535-541):
zero when either token set is falsy (empty), else intersection size
over union size, guarded by the `union > 0` check of line 541. -/
def jaccard (set1 set2 : Finset String) : ℚ :=
  if set1 = ∅ ∨ set2 = ∅ then 0
  else if 0 < (set1 ∪ set2).card then
    ((set1 ∩ set2).card : ℚ) / ((set1 ∪ set2).card : ℚ)
  else 0

/-- Embeds `AdvancedScriptValidator._calculate_similarity` (lines
527-541): build the two underscore-token sets and take their guarded
Jaccard ratio. Python float division of the two set sizes is modelled
as exact rational division. -/
def calculate_similarity (str1 str2 : String) : ℚ :=
  jaccard (tokenSet str1) (tokenSet str2)

/-- Boolean test that `needle` is a prefix of `hay` (character
lists). -/
def listHasPrefixB : List Char → List Char → Bool
  | [], _ => true
  | _ :: _, [] => false
  | a :: as, b :: bs => a = b && listHasPrefixB as bs

/-- Boolean test that `needle` occurs as a contiguous substring of
`hay` (character lists), unanchored. -/
def listHasSubstr (needle : List Char) : List Char → Bool
  | [] => listHasPrefixB needle []
  | c :: cs => listHasPrefixB needle (c :: cs) || listHasSubstr needle cs

/-- Unanchored substring test on strings: does `hay` contain
`needle`. -/
def strContainsSub (hay needle : String) : Bool :=
  listHasSubstr needle.data hay.data

/-- Modelled from the spec: the pattern-mode identifier fragment
(spec section 4.1). The pattern-mode branch of the matcher is not
among the provided source files (the spec describes a repository
with further near-duplicate engine variants); per the spec the
fragment is the prefix plus the joined non-blank levels, with no
fixed suffix. -/
def generate_pattern_fragment (category2 level1 level2 level3 : String) : String :=
  let parts := List.filterMap keepPart [category2, level1, level2, level3]
  if parts.isEmpty then "" else "IBD_" ++ pyJoin "_" parts

/-- Modelled from the spec: pattern-mode matching (spec section 4.4).
A corpus artifact matches when its filename contains the fragment as
an unanchored substring; all matching artifacts are collected, in
corpus order. -/
def pattern_match_scripts (frag : String) (scripts : List Script) : List Script :=
  scripts.filter (fun s => strContainsSub s.file_name frag)

/-- The configuration switch between the two matching modes the spec
requires (spec sections 4.1 and 6): exact filename equality, or
unanchored substring matching on the fragment. -/
inductive MatchMode where
  | exactName : MatchMode
  | patternSub : MatchMode
deriving DecidableEq, Repr

/-- Modelled from the spec: the mode-dispatched matcher for one
expected entry (spec section 4.4). Exact mode is the embedding of the
source loop (`validateOne`); pattern mode recomputes the fragment
from the row levels and attaches every substring match. Returns the
Matched flag and the attached artifacts. -/
def validate_mode (mode : MatchMode) (scripts : List Script) (e : ExpectedScript) :
    Bool × List Script :=
  match mode with
  | .exactName =>
    match findFirst e.script_name scripts with
    | some s => (true, [s])
    | none => (false, [])
  | .patternSub =>
    let frag := generate_pattern_fragment (cellStr e.row.category2) (cellStr e.row.level1)
      (cellStr e.row.level2) (cellStr e.row.level3)
    let ms := pattern_match_scripts frag scripts
    (!ms.isEmpty, ms)

/-- Whether some corpus script carries exactly the given filename:
the success condition of the search loop of `validate_scripts`. -/
def existsName (name : String) (scripts : List Script) : Bool :=
  scripts.any (fun t => t.file_name == name)

/-- The expected script name of one row, as `generate_expected_scripts`
computes it from the extracted level cells (lines 196-202). -/
def rowScriptName (r : Row) : String :=
  generate_script_name (cellStr r.category2) (cellStr r.level1)
    (cellStr r.level2) (cellStr r.level3)

/-! Helper lemmas shared by the claim theorems. -/

/-- A part contributes nothing to the name exactly when it is blank. -/
theorem keepPart_none_iff (p : String) : keepPart p = none ↔ isBlankPart p = true := by
  unfold keepPart
  by_cases h : isBlankPart p = true <;> simp [h]

/-- A non-blank part that strips to itself contributes itself. -/
theorem keepPart_of_nonblank (p : String) (h1 : isBlankPart p = false) (h2 : pyStrip p = p) :
    keepPart p = some p := by
  simp [keepPart, h1, h2]

/-- The empty string is a blank part. -/
theorem isBlankPart_empty : isBlankPart "" = true := rfl

/-- The empty string contributes nothing to the name. -/
theorem keepPart_empty : keepPart "" = none := by
  simp [keepPart, isBlankPart_empty]

/-- A wrapped identifier is never the empty-string sentinel. -/
theorem wrapped_ne_empty (j : String) : ("IBD_" ++ j ++ "__.py" : String) ≠ "" := by
  intro h
  have hl := congrArg String.length h
  rw [String.length_append, String.length_append] at hl
  have h4 : ("IBD_" : String).length = 4 := rfl
  have h5 : ("__.py" : String).length = 5 := rfl
  rw [h4, h5] at hl
  simp at hl

/-! Claim theorems. -/

/-- C2 counterexample: the claim says a blank `category` makes the
Naming Rule return the "no identifier" sentinel and never a partial
identifier; on the code, a row with blank category and non-blank
level1 `"B"` yields the partial identifier `"IBD_B__.py"`, not the
sentinel `""`. -/
theorem C2_counterexample :
    isBlankPart "" = true
    ∧ generate_script_name "" "B" "" "" = "IBD_B__.py"
    ∧ generate_script_name "" "B" "" "" ≠ "" := by
  refine ⟨rfl, by decide, by decide⟩

/-- C2 amended: the Naming Rule returns the empty-string sentinel
exactly when all four levels are blank; when `category` or `level1`
is blank but some other level is not, it returns a partial identifier
built from the remaining non-blank levels. -/
theorem C2_sentinel_iff_all_levels_blank (c l1 l2 l3 : String) :
    generate_script_name c l1 l2 l3 = "" ↔
      isBlankPart c = true ∧ isBlankPart l1 = true
      ∧ isBlankPart l2 = true ∧ isBlankPart l3 = true := by
  unfold generate_script_name
  by_cases hc : isBlankPart c = true <;> by_cases h1 : isBlankPart l1 = true <;>
    by_cases h2 : isBlankPart l2 = true <;> by_cases h3 : isBlankPart l3 = true <;>
      simp [keepPart, hc, h1, h2, h3, wrapped_ne_empty]

/-- C4 counterexample: the claim says a blank `level2` forces
`level3` to contribute nothing; on the code, levels
`("A", "B", "", "C")` yield `"IBD_A_B_C__.py"`, in which the
non-blank `level3` does contribute, differing from the
`("A", "B", "", "")` identifier the claim demands. -/
theorem C4_counterexample :
    generate_script_name "A" "B" "" "C" = "IBD_A_B_C__.py"
    ∧ generate_script_name "A" "B" "" "" = "IBD_A_B__.py"
    ∧ generate_script_name "A" "B" "" "C" ≠ generate_script_name "A" "B" "" "" := by
  refine ⟨by decide, by decide, by decide⟩

/-- C4 amended: blank levels are skipped individually wherever they
occur; a non-blank deeper level still contributes when a shallower
level is blank, so for non-blank strip-fixed levels A, B, C with
blank level2 the identifier is `IBD_A_B_C__.py`. -/
theorem C4_blank_level_skipped_individually (A B C : String)
    (hA : isBlankPart A = false) (hAs : pyStrip A = A)
    (hB : isBlankPart B = false) (hBs : pyStrip B = B)
    (hC : isBlankPart C = false) (hCs : pyStrip C = C) :
    generate_script_name A B "" C = "IBD_" ++ A ++ "_" ++ B ++ "_" ++ C ++ "__.py" := by
  unfold generate_script_name
  rw [List.filterMap]
  simp [keepPart_of_nonblank A hA hAs, keepPart_of_nonblank B hB hBs,
    keepPart_of_nonblank C hC hCs, keepPart_empty, pyJoin, String.append_assoc]

/-- C4 witness: the amended theorem applied at the concrete levels
`("A", "B", "", "C")`. -/
theorem C4_blank_level_witness :
    generate_script_name "A" "B" "" "C" = "IBD_A_B_C__.py" :=
  C4_blank_level_skipped_individually "A" "B" "C"
    (by decide) (by decide) (by decide) (by decide) (by decide) (by decide)

/-- The search loop succeeds exactly when some corpus script carries
the expected filename. -/
theorem findFirst_isSome_eq (name : String) (scripts : List Script) :
    (findFirst name scripts).isSome = existsName name scripts := by
  induction scripts with
  | nil => rfl
  | cons s rest ih =>
    by_cases h : s.file_name = name
    · simp [findFirst, existsName, h]
    · simp only [findFirst, existsName, List.any_cons] at ih ⊢
      simp [h, ih]

/-- The search loop returns the first matching script; when the
matching script is unique, it returns exactly that script. -/
theorem findFirst_first_match (name : String) (s : Script) :
    ∀ scripts : List Script, s ∈ scripts → s.file_name = name →
      (∀ t ∈ scripts, t.file_name = name → t = s) →
      findFirst name scripts = some s := by
  intro scripts
  induction scripts with
  | nil => intro hs _ _; cases hs
  | cons u rest ih =>
    intro hs hname huniq
    by_cases hu : u.file_name = name
    · have hue : u = s := huniq u (List.mem_cons_self u rest) hu
      subst hue
      simp [findFirst, hu]
    · have hsrest : s ∈ rest := by
        rcases List.mem_cons.mp hs with h | h
        · exact absurd (h ▸ hname) hu
        · exact h
      simp only [findFirst, hu, if_neg]
      exact ih hsrest hname (fun t ht hts => huniq t (List.mem_cons_of_mem u ht) hts)

/-- The Matched flag of one validation row equals corpus membership
of the expected filename. -/
theorem validateOne_found_iff (scripts : List Script) (e : ExpectedScript) :
    (validateOne scripts e).status_found = existsName e.script_name scripts := by
  have h := findFirst_isSome_eq e.script_name scripts
  cases hf : findFirst e.script_name scripts with
  | none =>
    rw [hf] at h
    simpa [validateOne, hf] using h
  | some s =>
    rw [hf] at h
    simpa [validateOne, hf] using h

/-- The matcher copies the expected entry into its result row
unchanged. -/
theorem validateOne_expected (scripts : List Script) (e : ExpectedScript) :
    (validateOne scripts e).expected = e := by
  unfold validateOne
  cases findFirst e.script_name scripts <;> rfl

/-- C1: in exact mode, a row whose non-blank levels are (A, B) gets
the identifier `IBD_A_B__.py` and one with non-blank levels
(A, B, C) gets `IBD_A_B_C__.py`; the matcher classifies a row
Matched exactly when some corpus artifact carries exactly the
expected filename; and when exactly one artifact carries it, the
result row attaches that single artifact (records its relative
path). -/
theorem C1_exact_mode_naming_and_matching
    (c l1 l2 l3 d m1 m2 m3 A B C : String)
    (hAB : List.filterMap keepPart [c, l1, l2, l3] = [A, B])
    (hABC : List.filterMap keepPart [d, m1, m2, m3] = [A, B, C])
    (scripts scripts2 : List Script) (e e2 : ExpectedScript) (s : Script)
    (hs : s ∈ scripts) (hname : s.file_name = e.script_name)
    (huniq : ∀ t ∈ scripts, t.file_name = e.script_name → t = s) :
    generate_script_name c l1 l2 l3 = "IBD_" ++ A ++ "_" ++ B ++ "__.py"
    ∧ generate_script_name d m1 m2 m3 = "IBD_" ++ A ++ "_" ++ B ++ "_" ++ C ++ "__.py"
    ∧ (validateOne scripts2 e2).status_found = existsName e2.script_name scripts2
    ∧ validateOne scripts e =
        { expected := e, status_found := true, actual_path := s.relative_path } := by
  refine ⟨?_, ?_, validateOne_found_iff scripts2 e2, ?_⟩
  · unfold generate_script_name
    rw [hAB]
    simp [pyJoin, String.append_assoc]
  · unfold generate_script_name
    rw [hABC]
    simp [pyJoin, String.append_assoc]
  · unfold validateOne
    rw [findFirst_first_match e.script_name s scripts hs hname huniq]

/-- C1 witness: the theorem applied at levels `("A", "B", "", "")`
and `("A", "B", "C", "")` and at a two-script corpus in which
exactly one artifact is named `T.py`. -/
theorem C1_exact_mode_witness :
    generate_script_name "A" "B" "" "" = "IBD_A_B__.py"
    ∧ generate_script_name "A" "B" "C" "" = "IBD_A_B_C__.py"
    ∧ (validateOne [⟨"IBD_Cat_L1__.py", "r0", "d0"⟩, ⟨"T.py", "r1", "d1"⟩]
        ⟨⟨Value.na, Value.na, Value.na, Value.na⟩, "T.py", ""⟩).status_found
      = existsName "T.py" [⟨"IBD_Cat_L1__.py", "r0", "d0"⟩, ⟨"T.py", "r1", "d1"⟩]
    ∧ validateOne [⟨"IBD_Cat_L1__.py", "r0", "d0"⟩, ⟨"T.py", "r1", "d1"⟩]
        ⟨⟨Value.na, Value.na, Value.na, Value.na⟩, "T.py", ""⟩
      = ⟨⟨⟨Value.na, Value.na, Value.na, Value.na⟩, "T.py", ""⟩, true, "r1"⟩ :=
  C1_exact_mode_naming_and_matching "A" "B" "" "" "A" "B" "C" "" "A" "B" "C"
    (by decide) (by decide)
    [⟨"IBD_Cat_L1__.py", "r0", "d0"⟩, ⟨"T.py", "r1", "d1"⟩]
    [⟨"IBD_Cat_L1__.py", "r0", "d0"⟩, ⟨"T.py", "r1", "d1"⟩]
    ⟨⟨Value.na, Value.na, Value.na, Value.na⟩, "T.py", ""⟩
    ⟨⟨Value.na, Value.na, Value.na, Value.na⟩, "T.py", ""⟩
    ⟨"T.py", "r1", "d1"⟩
    (by decide) (by decide) (by decide)

/-- C3 counterexample: the claim says every filtered row yielding the
sentinel appears in the result sequence as Unmatched with an invalid
row reason; on the code, the all-blank row yields the sentinel, is
dropped by `generate_expected_scripts`, and the result sequence of
the run is empty, so the row appears nowhere. -/
theorem C3_counterexample :
    rowScriptName ⟨Value.na, Value.na, Value.na, Value.na⟩ = ""
    ∧ generate_expected_scripts [⟨Value.na, Value.na, Value.na, Value.na⟩] = []
    ∧ (validate_scripts
        (generate_expected_scripts [⟨Value.na, Value.na, Value.na, Value.na⟩])
        [⟨"IBD_X__.py", "p", "f"⟩]).1 = [] := by
  refine ⟨by decide, by decide, by decide⟩

/-- Every produced expected entry comes from a listed row whose
script name is not the sentinel. -/
theorem mem_generate_expected (rows : List Row) (e : ExpectedScript)
    (he : e ∈ generate_expected_scripts rows) :
    e.row ∈ rows ∧ rowScriptName e.row ≠ "" := by
  rcases List.mem_filterMap.mp he with ⟨r, hr, hbody⟩
  simp only at hbody
  by_cases hn : generate_script_name (cellStr r.category2) (cellStr r.level1)
      (cellStr r.level2) (cellStr r.level3) = ""
  · rw [if_pos hn] at hbody
    cases hbody
  · rw [if_neg hn] at hbody
    have he2 := Option.some.inj hbody
    constructor
    · rw [← he2]
      exact hr
    · rw [← he2]
      exact hn

/-- C3 amended: a filtered row that yields the "no identifier"
sentinel is excluded from the expected list before any matching, so
no corpus lookup is attempted for it; but contrary to the claim it is
silently dropped, appearing neither among the expected entries nor in
the result sequence of the matcher. -/
theorem C3_sentinel_rows_silently_dropped (rows : List Row) (scripts : List Script)
    (r : Row) (hr : rowScriptName r = "") :
    ((generate_expected_scripts rows).map ExpectedScript.row).contains r = false
    ∧ (((validate_scripts (generate_expected_scripts rows) scripts).1).map
        (fun v => v.expected.row)).contains r = false := by
  have hnot : r ∉ (generate_expected_scripts rows).map ExpectedScript.row := by
    intro hmem
    rcases List.mem_map.mp hmem with ⟨e, he, hrow⟩
    have h2 := (mem_generate_expected rows e he).2
    rw [hrow] at h2
    exact h2 hr
  constructor
  · simpa using hnot
  · have hnot2 : r ∉ ((validate_scripts (generate_expected_scripts rows) scripts).1).map
        (fun v => v.expected.row) := by
      intro hmem
      rcases List.mem_map.mp hmem with ⟨v, hv, hrow⟩
      rcases List.mem_map.mp hv with ⟨e, he, hev⟩
      apply hnot
      apply List.mem_map.mpr
      refine ⟨e, he, ?_⟩
      rw [← hrow, ← hev, validateOne_expected]
    simpa using hnot2

/-- C3 witness: the amended theorem applied to a two-row collection
in which the all-blank row yields the sentinel. -/
theorem C3_sentinel_rows_witness :
    ((generate_expected_scripts
        [⟨Value.na, Value.na, Value.na, Value.na⟩, ⟨Value.str "A", Value.str "B", Value.na, Value.na⟩]).map
        ExpectedScript.row).contains ⟨Value.na, Value.na, Value.na, Value.na⟩ = false
    ∧ (((validate_scripts
        (generate_expected_scripts
          [⟨Value.na, Value.na, Value.na, Value.na⟩, ⟨Value.str "A", Value.str "B", Value.na, Value.na⟩])
        [⟨"IBD_A_B__.py", "p", "f"⟩]).1).map
        (fun v => v.expected.row)).contains ⟨Value.na, Value.na, Value.na, Value.na⟩ = false :=
  C3_sentinel_rows_silently_dropped
    [⟨Value.na, Value.na, Value.na, Value.na⟩, ⟨Value.str "A", Value.str "B", Value.na, Value.na⟩]
    [⟨"IBD_A_B__.py", "p", "f"⟩]
    ⟨Value.na, Value.na, Value.na, Value.na⟩
    (by decide)

/-- C5 counterexample: the claim says a scan of a tree holding
`a/X.py` and `b/X.py` yields exactly one artifact keyed `X.py` with a
last-seen-wins policy; on the code, the scan returns a list holding
both occurrences (two entries named `X.py`), and the matcher
attaches the first-seen entry, not the last. -/
theorem C5_counterexample :
    (find_python_scripts [("a", ["X.py"]), ("b", ["X.py"])]).length = 2
    ∧ find_python_scripts [("a", ["X.py"]), ("b", ["X.py"])] =
        ([⟨"X.py", "a/X.py", "a"⟩, ⟨"X.py", "b/X.py", "b"⟩] : List Script)
    ∧ findFirst "X.py" (find_python_scripts [("a", ["X.py"]), ("b", ["X.py"])]) =
        some (⟨"X.py", "a/X.py", "a"⟩ : Script) := by
  refine ⟨by decide, by decide, by decide⟩

/-- C5 amended: scanning a tree holding the same `.py` filename in
two directories retains one Script entry per occurrence, in
traversal order; the matcher attributes a row to the first-seen
matching entry; and the scan is a pure function of the traversal, so
re-scanning an unchanged tree yields the identical list. -/
theorem C5_duplicate_names_both_retained (a b n : String)
    (hn : pyEndsWith n ".py" = true) :
    find_python_scripts [(a, [n]), (b, [n])] =
      ([⟨n, pathJoin a n, a⟩, ⟨n, pathJoin b n, b⟩] : List Script)
    ∧ findFirst n (find_python_scripts [(a, [n]), (b, [n])]) =
        some (⟨n, pathJoin a n, a⟩ : Script)
    ∧ find_python_scripts [(a, [n]), (b, [n])] = find_python_scripts [(a, [n]), (b, [n])] := by
  have hscan : find_python_scripts [(a, [n]), (b, [n])] =
      ([⟨n, pathJoin a n, a⟩, ⟨n, pathJoin b n, b⟩] : List Script) := by
    simp [find_python_scripts, hn]
  refine ⟨hscan, ?_, rfl⟩
  rw [hscan]
  simp [findFirst]

/-- C5 witness: the amended theorem applied to the
`a/X.py`, `b/X.py` tree of the claim. -/
theorem C5_duplicate_names_witness :
    find_python_scripts [("a", ["X.py"]), ("b", ["X.py"])] =
      ([⟨"X.py", "a/X.py", "a"⟩, ⟨"X.py", "b/X.py", "b"⟩] : List Script)
    ∧ findFirst "X.py" (find_python_scripts [("a", ["X.py"]), ("b", ["X.py"])]) =
        some (⟨"X.py", "a/X.py", "a"⟩ : Script)
    ∧ find_python_scripts [("a", ["X.py"]), ("b", ["X.py"])] =
        find_python_scripts [("a", ["X.py"]), ("b", ["X.py"])] :=
  C5_duplicate_names_both_retained "a" "b" "X.py" (by decide)

/-- A successful pipeline run keeps exactly the rows of the input
that satisfy every registered filter. -/
theorem apply_filters_ok_mem (cols : List String) (fs : List RowFilter) :
    ∀ (rows res : List RowMap), apply_filters cols rows fs = Except.ok res →
      ∀ x : RowMap, x ∈ res ↔ x ∈ rows ∧ ∀ f ∈ fs, evalFilter f x = true := by
  induction fs with
  | nil =>
    intro rows res h x
    simp only [apply_filters] at h
    injection h with h2
    subst h2
    simp
  | cons f rest ih =>
    intro rows res h x
    unfold apply_filters at h
    unfold filterStep at h
    by_cases hcust : isCustomF f = true
    · rw [if_pos hcust] at h
      rw [ih _ _ h x]
      simp only [List.mem_filter, List.forall_mem_cons]
      tauto
    · rw [if_neg hcust] at h
      by_cases hcol : cols.contains f.column = true
      · rw [if_pos hcol] at h
        rw [ih _ _ h x]
        simp only [List.mem_filter, List.forall_mem_cons]
        tauto
      · rw [if_neg hcol] at h
        cases h

/-- C6: when the same set of filters is applied in two different
orders and both runs succeed, the final row sets are equal; order
can only affect the intermediate audit counts, never final row-set
membership. -/
theorem C6_filter_order_independent (cols : List String) (rows : List RowMap)
    (fs1 fs2 : List RowFilter) (r1 r2 : List RowMap)
    (hp : fs1.Perm fs2)
    (h1 : apply_filters cols rows fs1 = Except.ok r1)
    (h2 : apply_filters cols rows fs2 = Except.ok r2) :
    r1.toFinset = r2.toFinset := by
  apply Finset.ext
  intro x
  rw [List.mem_toFinset, List.mem_toFinset,
    apply_filters_ok_mem cols fs1 rows r1 h1 x,
    apply_filters_ok_mem cols fs2 rows r2 h2 x]
  constructor
  · rintro ⟨hx, hall⟩
    exact ⟨hx, fun f hf => hall f (hp.mem_iff.mpr hf)⟩
  · rintro ⟨hx, hall⟩
    exact ⟨hx, fun f hf => hall f (hp.mem_iff.mp hf)⟩

/-- C6 witness: the theorem applied to a one-row frame and the two
orders of an equality filter and a not-null filter. -/
theorem C6_filter_order_witness :
    ([[("k", Value.str "v"), ("m", Value.str "w")]] : List RowMap).toFinset =
      ([[("k", Value.str "v"), ("m", Value.str "w")]] : List RowMap).toFinset :=
  C6_filter_order_independent ["k", "m"] [[("k", Value.str "v"), ("m", Value.str "w")]]
    [⟨"k", Condition.equal (Value.str "v")⟩, ⟨"m", Condition.notnull⟩]
    [⟨"m", Condition.notnull⟩, ⟨"k", Condition.equal (Value.str "v")⟩]
    [[("k", Value.str "v"), ("m", Value.str "w")]]
    [[("k", Value.str "v"), ("m", Value.str "w")]]
    (List.Perm.swap (⟨"m", Condition.notnull⟩ : RowFilter)
      (⟨"k", Condition.equal (Value.str "v")⟩ : RowFilter) [])
    rfl rfl

/-- A registered non-custom filter on a column missing from the
schema guarantees that some filter application fails. -/
theorem firstError_isSome (cols : List String) :
    ∀ (fs : List RowFilter) (f : RowFilter), f ∈ fs → isCustomF f = false →
      cols.contains f.column = false → (firstError cols fs).isSome = true := by
  intro fs
  induction fs with
  | nil => intro f hf _ _; cases hf
  | cons g rest ih =>
    intro f hf hnc hcol
    unfold firstError
    by_cases hg : (isCustomF g || cols.contains g.column) = true
    · rw [if_pos hg]
      rcases List.mem_cons.mp hf with h | h
      · rw [← h, hnc, hcol] at hg
        exact absurd hg (by decide)
      · exact ih f h hnc hcol
    · rw [if_neg hg]
      rfl

/-- The pipeline surfaces the first failing column as its error,
independent of the row data; the surfaced column is missing from the
schema and belongs to a registered filter. -/
theorem apply_filters_error_spec (cols : List String) :
    ∀ (fs : List RowFilter) (rows : List RowMap) (c : String),
      firstError cols fs = some c →
      apply_filters cols rows fs = Except.error c
      ∧ cols.contains c = false
      ∧ c ∈ fs.map RowFilter.column := by
  intro fs
  induction fs with
  | nil => intro rows c h; cases h
  | cons g rest ih =>
    intro rows c h
    unfold firstError at h
    unfold apply_filters filterStep
    by_cases hg : (isCustomF g || cols.contains g.column) = true
    · rw [if_pos hg] at h
      by_cases hgc : isCustomF g = true
      · rw [if_pos hgc]
        have spec := ih (rows.filter (evalFilter g)) c h
        refine ⟨spec.1, spec.2.1, ?_⟩
        simp only [List.map_cons]
        exact List.mem_cons_of_mem g.column spec.2.2
      · have hgcol : cols.contains g.column = true := by
          rcases Bool.or_eq_true_iff.mp hg with h2 | h2
          · exact absurd h2 hgc
          · exact h2
        rw [if_neg hgc, if_pos hgcol]
        have spec := ih (rows.filter (evalFilter g)) c h
        exact ⟨spec.1, spec.2.1, List.mem_cons_of_mem g.column spec.2.2⟩
    · rw [if_neg hg] at h
      injection h with h2
      subst h2
      have hg3 : isCustomF g = false := by
        cases hcu : isCustomF g
        · rfl
        · exact absurd (by rw [hcu]; rfl) hg
      have hg4 : cols.contains g.column = false := by
        cases hco : cols.contains g.column
        · rfl
        · exact absurd (by rw [hco]; simp) hg
      rw [if_neg (by rw [hg3]; decide), if_neg (by rw [hg4]; decide)]
      exact ⟨rfl, hg4, by simp⟩

/-- C7: applying the pipeline with a non-custom filter whose column
is absent from the frame schema fails: some filter application
errors, the run short-circuits into an error carrying a column name,
that column is indeed missing from the schema, and it belongs to a
registered filter; the missing column is reported, never silently
ignored. -/
theorem C7_missing_column_error (cols : List String) (rows : List RowMap)
    (fs : List RowFilter) (f : RowFilter)
    (hf : f ∈ fs) (hnc : isCustomF f = false) (hcol : cols.contains f.column = false) :
    (firstError cols fs).isSome = true
    ∧ apply_filters cols rows fs = Except.error ((firstError cols fs).getD "")
    ∧ cols.contains ((firstError cols fs).getD "") = false
    ∧ (firstError cols fs).getD "" ∈ fs.map RowFilter.column := by
  have hsome := firstError_isSome cols fs f hf hnc hcol
  cases hE : firstError cols fs with
  | none =>
    rw [hE] at hsome
    cases hsome
  | some c =>
    have spec := apply_filters_error_spec cols fs rows c hE
    exact ⟨rfl, spec.1, spec.2.1, spec.2.2⟩

/-- C7 witness: the theorem applied to a schema with only column
`"k"` and a not-null filter on the absent column `"m"`. -/
theorem C7_missing_column_witness :
    (firstError ["k"] [⟨"m", Condition.notnull⟩]).isSome = true
    ∧ apply_filters ["k"] [[("k", Value.str "v")]] [⟨"m", Condition.notnull⟩] =
        Except.error ((firstError ["k"] [⟨"m", Condition.notnull⟩]).getD "")
    ∧ (["k"] : List String).contains
        ((firstError ["k"] [⟨"m", Condition.notnull⟩]).getD "") = false
    ∧ (firstError ["k"] [⟨"m", Condition.notnull⟩]).getD "" ∈
        ([⟨"m", Condition.notnull⟩] : List RowFilter).map RowFilter.column :=
  C7_missing_column_error ["k"] [[("k", Value.str "v")]] [⟨"m", Condition.notnull⟩]
    ⟨"m", Condition.notnull⟩ (List.mem_cons_self _ _) rfl rfl

/-- The guarded Jaccard ratio is symmetric. -/
theorem jaccard_comm (X Y : Finset String) : jaccard X Y = jaccard Y X := by
  unfold jaccard
  by_cases hX : X = ∅ <;> by_cases hY : Y = ∅ <;>
    simp [hX, hY, Finset.inter_comm Y X, Finset.union_comm Y X]

/-- The guarded Jaccard ratio of a non-empty set with itself is 1. -/
theorem jaccard_self (X : Finset String) (h : X ≠ ∅) : jaccard X X = 1 := by
  have hpos : 0 < X.card := Finset.card_pos.mpr (Finset.nonempty_iff_ne_empty.mpr h)
  have hne : (X.card : ℚ) ≠ 0 := by
    exact_mod_cast Nat.pos_iff_ne_zero.mp hpos
  simp [jaccard, h, hpos, div_self hne]

/-- The split helper never returns the empty token list. -/
theorem splitAux_ne_nil (sep : Char) : ∀ (cs acc : List Char), splitAux sep cs acc ≠ [] := by
  intro cs
  induction cs with
  | nil => intro acc; simp [splitAux]
  | cons c rest ih =>
    intro acc
    unfold splitAux
    by_cases h : c = sep
    · rw [if_pos h]
      simp
    · rw [if_neg h]
      exact ih (c :: acc)

/-- Splitting any string on the underscore yields a non-empty token
set, exactly as in Python where `split` always returns at least one
token. -/
theorem tokenSet_ne_empty (s : String) : tokenSet s ≠ ∅ := by
  unfold tokenSet pySplit
  rw [Ne, List.toFinset_eq_empty_iff]
  exact splitAux_ne_nil '_' s.data []

/-- C8: the similarity function is the guarded Jaccard index over
underscore-token sets: it is symmetric for all token sets, equals 1
on any non-empty set compared with itself, equals 0 whenever either
set is empty (the guard, so no division by zero), and the
string-level similarity is symmetric. -/
theorem C8_jaccard_properties (X Y : Finset String) (s t : String) (hX : X ≠ ∅) :
    jaccard X Y = jaccard Y X
    ∧ jaccard X X = 1
    ∧ jaccard ∅ Y = 0
    ∧ jaccard Y ∅ = 0
    ∧ calculate_similarity s t = calculate_similarity t s := by
  refine ⟨jaccard_comm X Y, jaccard_self X hX, ?_, ?_,
    jaccard_comm (tokenSet s) (tokenSet t)⟩
  · simp [jaccard]
  · simp [jaccard]

/-- C8 witness: the theorem applied at the singleton sets of `"a"`
and `"b"` and at the strings `"a_b"` and `"b"`. -/
theorem C8_jaccard_witness :
    jaccard {"a"} {"b"} = jaccard {"b"} {"a"}
    ∧ jaccard {"a"} {"a"} = 1
    ∧ jaccard ∅ {"b"} = 0
    ∧ jaccard {"b"} ∅ = 0
    ∧ calculate_similarity "a_b" "b" = calculate_similarity "b" "a_b" :=
  C8_jaccard_properties {"a"} {"b"} "a_b" "b" (by decide)

/-- C9: in pattern mode an artifact is attached exactly when its
filename contains the identifier fragment as an unanchored
substring; the fragment `IBD_A_B` matches the three corpus names
`IBD_A_B__.py`, `IBD_A_B_extra__.py` and `zzz_IBD_A_B__.py` and all
three artifacts are attached to the single result of the row with
levels (A, B); and the mode switch also provides exact matching,
agreeing with the exact-mode matcher. -/
theorem C9_pattern_mode_substring_matching (frag : String) (scripts : List Script)
    (s : Script) (e : ExpectedScript) :
    (s ∈ pattern_match_scripts frag scripts ↔
      s ∈ scripts ∧ strContainsSub s.file_name frag = true)
    ∧ pattern_match_scripts "IBD_A_B"
        ([⟨"IBD_A_B__.py", "p1", "d1"⟩, ⟨"IBD_A_B_extra__.py", "p2", "d2"⟩,
          ⟨"zzz_IBD_A_B__.py", "p3", "d3"⟩] : List Script) =
        ([⟨"IBD_A_B__.py", "p1", "d1"⟩, ⟨"IBD_A_B_extra__.py", "p2", "d2"⟩,
          ⟨"zzz_IBD_A_B__.py", "p3", "d3"⟩] : List Script)
    ∧ validate_mode MatchMode.patternSub
        ([⟨"IBD_A_B__.py", "p1", "d1"⟩, ⟨"IBD_A_B_extra__.py", "p2", "d2"⟩,
          ⟨"zzz_IBD_A_B__.py", "p3", "d3"⟩] : List Script)
        ⟨⟨Value.str "A", Value.str "B", Value.na, Value.na⟩, "IBD_A_B__.py", "A_B"⟩ =
        (true, [⟨"IBD_A_B__.py", "p1", "d1"⟩, ⟨"IBD_A_B_extra__.py", "p2", "d2"⟩,
          ⟨"zzz_IBD_A_B__.py", "p3", "d3"⟩])
    ∧ (validate_mode MatchMode.exactName scripts e).1 = (validateOne scripts e).status_found := by
  refine ⟨?_, by decide, by decide, ?_⟩
  · simp [pattern_match_scripts, List.mem_filter]
  · unfold validate_mode validateOne
    cases findFirst e.script_name scripts <;> rfl

/-- C10: the similarity computation is total on all string pairs and
yields a rational in the closed unit interval: both underscore-token
sets are non-empty (so the empty-set guard branch cannot fire), the
union size is at least one (so the division is never by zero), and
the result lies between 0 and 1. -/
theorem C10_similarity_total_and_bounded (s1 s2 : String) :
    tokenSet s1 ≠ ∅
    ∧ ¬(tokenSet s1 = ∅ ∨ tokenSet s2 = ∅)
    ∧ 0 < (tokenSet s1 ∪ tokenSet s2).card
    ∧ 0 ≤ calculate_similarity s1 s2
    ∧ calculate_similarity s1 s2 ≤ 1 := by
  have h1 := tokenSet_ne_empty s1
  have h2 := tokenSet_ne_empty s2
  have hguard : ¬(tokenSet s1 = ∅ ∨ tokenSet s2 = ∅) := by
    rintro (h | h)
    exacts [h1 h, h2 h]
  have hcard : 0 < (tokenSet s1 ∪ tokenSet s2).card := by
    apply Finset.card_pos.mpr
    exact Finset.Nonempty.mono Finset.subset_union_left
      (Finset.nonempty_iff_ne_empty.mpr h1)
  refine ⟨h1, hguard, hcard, ?_, ?_⟩
  · unfold calculate_similarity jaccard
    rw [if_neg hguard, if_pos hcard]
    positivity
  · unfold calculate_similarity jaccard
    rw [if_neg hguard, if_pos hcard]
    rw [div_le_one (by exact_mod_cast hcard)]
    exact_mod_cast Finset.card_le_card Finset.inter_subset_union

end ScriptValidator
